import Mathlib

/-!
Verification of the user-to-profile synchronization and access-control
mechanism of a Next.js + Supabase starter template.

The development shallowly embeds:
* the `profiles` table schema and the `handle_new_user` sync trigger from
  `supabase-setup.sql`;
* the row-level-security policies `"Users can view own profile"` and
  `"Users can update own profile"` from `supabase-setup.sql`;
* the setup statement sequence (drop-then-create idempotence) from
  `supabase-setup.sql`;
* the `POST /api/setup/database` statement-execution loop;
* the `POST /api/profile` handler (auth check, username-conflict check,
  Prisma upsert).
-/

namespace NextTemplate

/-- A row of `public.profiles` (columns of the `CREATE TABLE` in
`supabase-setup.sql`, named as in the Prisma `Profile` model:
`full_name ↦ fullName`, `avatar_url ↦ avatarUrl`, `created_at ↦ createdAt`,
`updated_at ↦ updatedAt`).  Timestamps are abstracted as naturals. -/
structure Profile where
  id : String
  email : String
  username : Option String := none
  fullName : Option String := none
  avatarUrl : Option String := none
  bio : Option String := none
  createdAt : Nat := 0
  updatedAt : Nat := 0
deriving Repr, DecidableEq

/-- An `auth.users` record owned by the external auth provider: the fields
the trigger reads (`new.id`, `new.email`). -/
structure Identity where
  id : String
  email : String
deriving Repr, DecidableEq

/-- Joint state of the auth provider's user table and the profiles table. -/
structure AuthDB where
  users : List Identity
  profiles : List Profile
deriving Repr, DecidableEq

/-- Insert one row into `public.profiles`, enforcing the table's
`PRIMARY KEY (id)` and `UNIQUE (email)` constraints; only `id` and `email`
are supplied, every other column takes its default (`NULL` for
`username`, `full_name`, `avatar_url`, `bio`; `now` for the timestamps). -/
def insertProfileRow (now : Nat) (uid em : String) (profiles : List Profile) :
    Except String (List Profile) :=
  if profiles.any (fun p => p.id == uid) then
    .error "duplicate key value violates unique constraint profiles_pkey"
  else if profiles.any (fun p => p.email == em) then
    .error "duplicate key value violates unique constraint profiles_email_key"
  else
    .ok ({ id := uid, email := em, createdAt := now, updatedAt := now } :: profiles)

/-- `public.handle_new_user()`:
`INSERT INTO public.profiles (id, email) VALUES (new.id, new.email)`. -/
def handle_new_user (now : Nat) (new : Identity) (profiles : List Profile) :
    Except String (List Profile) :=
  insertProfileRow now new.id new.email profiles

/-- Insertion of a new `auth.users` row together with the
`on_auth_user_created` `AFTER INSERT` trigger.  The trigger runs in the same
transaction as the identity insert, so either both rows are inserted or the
whole statement fails and the state is unchanged. -/
def insertAuthUser (now : Nat) (new : Identity) (db : AuthDB) :
    Except String AuthDB :=
  if db.users.any (fun u => u.id == new.id) then
    .error "duplicate key value violates unique constraint users_pkey"
  else
    match handle_new_user now new db.profiles with
    | .ok ps => .ok { users := new :: db.users, profiles := ps }
    | .error e => .error e

/-! ## Row-level security policies -/

/-- The SQL command a policy is declared `FOR`. -/
inductive PolicyCmd where
  | select
  | insert
  | update
  | delete
deriving Repr, DecidableEq

/-- A row-level-security policy on `profiles`: its name, the command it
covers, and its `USING` predicate, evaluated on `auth.uid()` (which is
`NULL`, i.e. `none`, for an unauthenticated request) and the row. -/
structure Policy where
  name : String
  cmd : PolicyCmd
  usingPred : Option String → Profile → Bool

/-- `CREATE POLICY "Users can view own profile" ON profiles FOR SELECT
USING (auth.uid() = id)`. -/
def usersCanViewOwnProfile : Policy :=
  { name := "Users can view own profile"
    cmd := .select
    usingPred := fun uid row => uid == some row.id }

/-- `CREATE POLICY "Users can update own profile" ON profiles FOR UPDATE
USING (auth.uid() = id)`. -/
def usersCanUpdateOwnProfile : Policy :=
  { name := "Users can update own profile"
    cmd := .update
    usingPred := fun uid row => uid == some row.id }

/-- The complete set of policies `supabase-setup.sql` creates on
`profiles`. -/
def profilesPolicies : List Policy :=
  [usersCanViewOwnProfile, usersCanUpdateOwnProfile]

/-- Row-level security on a table with RLS enabled: an ordinary caller may
perform `cmd` on `row` iff some (permissive) policy for `cmd` has a true
`USING` predicate; with no applicable policy, access is denied. -/
def rlsAllows (uid : Option String) (cmd : PolicyCmd) (row : Profile) : Bool :=
  profilesPolicies.any (fun p => p.cmd == cmd && p.usingPred uid row)

/-! ## POST /api/profile handler -/

/-- The JSON payload `{ username, fullName, bio }` destructured from the
request body; a field absent from the body or set to JSON `null` is
`none`, a string value `s` is `some s` (so `some ""` is an explicit empty
string). -/
structure ProfilePayload where
  username : Option String := none
  fullName : Option String := none
  bio : Option String := none
deriving Repr, DecidableEq

/-- JavaScript truthiness of an optional string: `undefined`, `null` and
`""` are falsy, every other string is truthy. -/
def jsTruthy : Option String → Bool
  | none => false
  | some s => !(s == "")

/-- The JavaScript expression `v || null`: keep `v` when truthy, else
`null`. -/
def orNull (v : Option String) : Option String :=
  if jsTruthy v then v else none

/-- The store operations the handler issues, in order (the trace lets us
state "no write/read was attempted"). -/
inductive StoreOp where
  | findFirstUsernameNotId (username : String) (excludedId : String)
  | upsert (id : String)
deriving Repr, DecidableEq

/-- The handler's HTTP result: `NextResponse.json({ profile })` or
`NextResponse.json({ error }, { status })`. -/
inductive ApiResponse where
  | ok (profile : Profile)
  | err (status : Nat) (message : String)
deriving Repr, DecidableEq

/-- `prisma.profile.findFirst({ where: { username, NOT: { id } } })`. -/
def findFirstUsernameNot (uname uid : String) (db : List Profile) :
    Option Profile :=
  db.find? (fun p => p.username == some uname && !(p.id == uid))

/-- `prisma.profile.findUnique`-style lookup by primary key. -/
def findProfile (uid : String) (db : List Profile) : Option Profile :=
  db.find? (fun p => p.id == uid)

/-- `prisma.profile.upsert({ where: { id: user.id }, update: {...},
create: {...} })`: update `username`, `fullName`, `bio` (each
`value || null`) if the row exists — `updatedAt` refreshed by the store's
`@updatedAt` — otherwise create the row with the caller's id and email. -/
def upsertProfile (now : Nat) (user : Identity) (payload : ProfilePayload)
    (db : List Profile) : Profile × List Profile :=
  match findProfile user.id db with
  | some p =>
      let q := { p with
        username := orNull payload.username
        fullName := orNull payload.fullName
        bio := orNull payload.bio
        updatedAt := now }
      (q, db.map (fun r => if r.id == user.id then q else r))
  | none =>
      let q : Profile :=
        { id := user.id
          email := user.email
          username := orNull payload.username
          fullName := orNull payload.fullName
          bio := orNull payload.bio
          createdAt := now
          updatedAt := now }
      (q, db ++ [q])

/-- The tail of the handler after the conflict check: perform the upsert
and respond with the resulting profile. -/
def profileUpsertStep (now : Nat) (user : Identity) (payload : ProfilePayload)
    (db : List Profile) (ops : List StoreOp) :
    ApiResponse × List Profile × List StoreOp :=
  let r := upsertProfile now user payload db
  (.ok r.1, r.2, ops ++ [.upsert user.id])

/-- `POST /api/profile`: 401 when `supabase.auth.getUser()` yields no
user; else, when `username` is truthy, reject with 400 if a different id
already holds it; else upsert keyed by the caller's id.  Returns the
response, the resulting table and the trace of store operations. -/
def postProfile (now : Nat) (session : Option Identity)
    (payload : ProfilePayload) (db : List Profile) :
    ApiResponse × List Profile × List StoreOp :=
  match session with
  | none => (.err 401 "Unauthorized", db, [])
  | some user =>
      if jsTruthy payload.username then
        let uname := payload.username.getD ""
        if (findFirstUsernameNot uname user.id db).isSome then
          (.err 400 "Username already taken", db,
            [.findFirstUsernameNotId uname user.id])
        else
          profileUpsertStep now user payload db
            [.findFirstUsernameNotId uname user.id]
      else
        profileUpsertStep now user payload db []

/-! ## POST /api/setup/database statement-execution loop -/

/-- Outcome of `supabaseAdmin.rpc(..., { sql }).single()` for one
statement: resolved without error, resolved with an error object carrying
a message, or threw. -/
inductive RpcResult where
  | ok
  | errored (message : String)
  | threw
deriving Repr, DecidableEq

/-- Outcome of the fallback readability probe
`supabaseAdmin.from(...).select(...).single()` run in the `catch`
branch. -/
inductive ReadCheck where
  | okData
  | errCode (code : String)
  | threw
deriving Repr, DecidableEq

/-- The store's behavior on one statement of the setup loop. -/
structure StmtEnv where
  rpc : RpcResult
  readCheck : ReadCheck
deriving Repr, DecidableEq

/-- Does `pat` occur at the start of `s`? -/
def charsHavePrefix : List Char → List Char → Bool
  | _, [] => true
  | [], _ :: _ => false
  | a :: s, b :: t => a == b && charsHavePrefix s t

/-- Does `pat` occur contiguously anywhere in `s`? -/
def charsInclude : List Char → List Char → Bool
  | s, pat =>
      charsHavePrefix s pat ||
        match s with
        | [] => false
        | _ :: tail => charsInclude tail pat

/-- JavaScript `s.includes(pat)`: `pat` occurs as a contiguous substring
of `s`. -/
def includesStr (s pat : String) : Bool := charsInclude s.toList pat.toList

/-- `sql.substring(0, 50) + '...'`, the fragment recorded per
statement. -/
def stmtFrag (sql : String) : String := sql.take 50 ++ "..."

/-- One entry of the `results` array: `{ sql, success: true }` or
`{ sql, error }`. -/
inductive StmtReport where
  | success (sql : String)
  | failure (sql : String) (error : String)
deriving Repr, DecidableEq

/-- The loop body for one statement: a returned error is recovered iff its
message contains "already exists"; a thrown call falls back to the
readability probe and is reported a success when the probe finds no error
or error code `PGRST116`. -/
def execSetupStmt (sql : String) (env : StmtEnv) : StmtReport :=
  match env.rpc with
  | .ok => .success (stmtFrag sql)
  | .errored msg =>
      if includesStr msg "already exists" then .success (stmtFrag sql)
      else .failure (stmtFrag sql) msg
  | .threw =>
      match env.readCheck with
      | .okData => .success (stmtFrag sql)
      | .errCode c =>
          if c == "PGRST116" then .success (stmtFrag sql)
          else .failure (stmtFrag sql) "Direct execution failed"
      | .threw => .failure (stmtFrag sql) "Execution failed"

/-- The `for (const sql of sqlStatements)` loop starting at position `i`:
every statement is attempted and contributes one report. -/
def runStatementsFrom (i : Nat) (stmts : List String) (env : Nat → StmtEnv) :
    List StmtReport :=
  match stmts with
  | [] => []
  | sql :: rest => execSetupStmt sql (env i) :: runStatementsFrom (i + 1) rest env

/-- The whole statement loop of `POST /api/setup/database`. -/
def runSetupStatements (stmts : List String) (env : Nat → StmtEnv) :
    List StmtReport :=
  runStatementsFrom 0 stmts env

/-- C8's claim, as stated: whenever the store signals anything other than
success for a statement, and the signal is not an "already exists" error,
the loop records a failure report (never a success) for that statement. -/
def setupErrorsSurfaced : Prop :=
  ∀ sql env, env.rpc ≠ RpcResult.ok →
    (∀ msg, env.rpc = RpcResult.errored msg →
      includesStr msg "already exists" = false) →
    ∃ e, execSetupStmt sql env = .failure (stmtFrag sql) e

/-! ## Setup script: schema-level statements -/

/-- The kinds of statement `supabase-setup.sql` contains, abstracted to
their effect on the schema catalog. -/
inductive SetupStmt where
  | createTableIfNotExists
  | createOrReplaceFunction (name : String)
  | dropTriggerIfExists (name : String)
  | createTrigger (name : String)
  | enableRowLevelSecurity
  | dropPolicyIfExists (name : String)
  | createPolicy (name : String)
deriving Repr, DecidableEq

/-- The schema catalog the setup script manipulates: whether the
`profiles` table exists, the defined function, trigger and policy names,
and whether row-level security is enabled on `profiles`. -/
structure SchemaState where
  profilesTable : Bool
  functions : Finset String
  triggers : Finset String
  policies : Finset String
  rlsEnabled : Bool
deriving DecidableEq

/-- Catalog semantics of one setup statement.  `CREATE TABLE IF NOT
EXISTS`, `CREATE OR REPLACE FUNCTION`, `DROP ... IF EXISTS` and
`ALTER TABLE ... ENABLE ROW LEVEL SECURITY` never fail; a bare
`CREATE TRIGGER` / `CREATE POLICY` fails when the name is already
defined. -/
def execStmt (stmt : SetupStmt) (s : SchemaState) : Except String SchemaState :=
  match stmt with
  | .createTableIfNotExists => .ok { s with profilesTable := true }
  | .createOrReplaceFunction n => .ok { s with functions := insert n s.functions }
  | .dropTriggerIfExists n => .ok { s with triggers := s.triggers.erase n }
  | .createTrigger n =>
      if n ∈ s.triggers then .error ("trigger " ++ n ++ " already exists")
      else .ok { s with triggers := insert n s.triggers }
  | .enableRowLevelSecurity => .ok { s with rlsEnabled := true }
  | .dropPolicyIfExists n => .ok { s with policies := s.policies.erase n }
  | .createPolicy n =>
      if n ∈ s.policies then .error ("policy " ++ n ++ " already exists")
      else .ok { s with policies := insert n s.policies }

/-- The statement sequence of `supabase-setup.sql`, in file order. -/
def setupStatements : List SetupStmt :=
  [ .createTableIfNotExists,
    .createOrReplaceFunction "handle_new_user",
    .dropTriggerIfExists "on_auth_user_created",
    .createTrigger "on_auth_user_created",
    .enableRowLevelSecurity,
    .dropPolicyIfExists "Users can view own profile",
    .createPolicy "Users can view own profile",
    .dropPolicyIfExists "Users can update own profile",
    .createPolicy "Users can update own profile",
    .createOrReplaceFunction "handle_updated_at",
    .dropTriggerIfExists "handle_profiles_updated_at",
    .createTrigger "handle_profiles_updated_at" ]

/-- Run the whole setup script once, stopping at the first failing
statement (a failing DDL statement aborts the script). -/
def runSetup (s : SchemaState) : Except String SchemaState :=
  setupStatements.foldlM (fun st stmt => execStmt stmt st) s

/-- Run the setup script `n` times in succession. -/
def runSetupN : Nat → SchemaState → Except String SchemaState
  | 0, s => .ok s
  | n + 1, s =>
      match runSetup s with
      | .ok s' => runSetupN n s'
      | .error e => .error e

/-- The catalog state one run of the setup script produces, as a plain
function of the starting state. -/
def applySetup (s : SchemaState) : SchemaState :=
  { profilesTable := true
    functions := insert "handle_updated_at" (insert "handle_new_user" s.functions)
    triggers :=
      insert "handle_profiles_updated_at"
        ((insert "on_auth_user_created" (s.triggers.erase "on_auth_user_created")).erase
          "handle_profiles_updated_at")
    policies :=
      insert "Users can update own profile"
        ((insert "Users can view own profile"
            (s.policies.erase "Users can view own profile")).erase
          "Users can update own profile")
    rlsEnabled := true }

end NextTemplate

namespace NextTemplate

/-- One run of the setup script always succeeds (every `CREATE TRIGGER` /
`CREATE POLICY` is preceded by the matching `DROP ... IF EXISTS`) and
produces `applySetup` of the starting state. -/
theorem runSetup_eq (s : SchemaState) : runSetup s = .ok (applySetup s) := by
  simp [runSetup, setupStatements, execStmt, applySetup, Finset.not_mem_erase,
    List.foldlM, Bind.bind, Except.bind, Pure.pure, Except.pure]

/-- `applySetup` is a projection: a second run starting from the state a
first run produced changes nothing. -/
theorem applySetup_idem (s : SchemaState) :
    applySetup (applySetup s) = applySetup s := by
  unfold applySetup
  congr 1
  · ext x
    simp only [Finset.mem_insert]
    tauto
  · ext x
    simp only [Finset.mem_insert, Finset.mem_erase]
    tauto
  · ext x
    simp only [Finset.mem_insert, Finset.mem_erase]
    tauto

/-- Iterating the script from an already-set-up state is the identity. -/
theorem runSetupN_applySetup (n : Nat) (s : SchemaState) :
    runSetupN n (applySetup s) = .ok (applySetup s) := by
  induction n generalizing s with
  | zero => rfl
  | succ n ih =>
      have h : runSetupN (n + 1) (applySetup s)
          = runSetupN n (applySetup (applySetup s)) := by
        simp [runSetupN, runSetup_eq]
      rw [h, applySetup_idem]
      exact ih s

/-- When the username is not truthy, or no other row holds it, the handler
reaches the upsert (with the conflict lookup in the trace exactly when the
username was truthy). -/
theorem postProfile_reaches_upsert (now : Nat) (user : Identity)
    (payload : ProfilePayload) (db : List Profile)
    (hpass : jsTruthy payload.username = false ∨
      ∀ p ∈ db, ¬(p.username = payload.username ∧ p.id ≠ user.id)) :
    postProfile now (some user) payload db =
      profileUpsertStep now user payload db
        (if jsTruthy payload.username then
          [.findFirstUsernameNotId (payload.username.getD "") user.id]
        else []) := by
  unfold postProfile
  rcases hpass with h | h
  · simp [h]
  · by_cases ht : jsTruthy payload.username
    · cases hu : payload.username with
      | none => rw [hu] at ht; simp [jsTruthy] at ht
      | some uname =>
          rw [hu] at ht
          have hfind : findFirstUsernameNot uname user.id db = none := by
            rw [findFirstUsernameNot, List.find?_eq_none]
            intro x hx
            have hnx := h x hx
            rw [hu] at hnx
            simp only [Bool.and_eq_true, beq_iff_eq, Bool.not_eq_true',
              beq_eq_false_iff_ne, ne_eq, not_and, not_not] at hnx ⊢
            intro h1
            exact hnx h1
          simp [ht, hfind]
    · simp [ht]

/-- The statement loop emits one report per statement. -/
theorem runStatementsFrom_length (i : Nat) (stmts : List String)
    (env : Nat → StmtEnv) :
    (runStatementsFrom i stmts env).length = stmts.length := by
  induction stmts generalizing i with
  | nil => rfl
  | cons a l ih => simp [runStatementsFrom, ih]

/-- The report at position `i` is the loop body applied to the `i`-th
statement. -/
theorem runStatementsFrom_getElem? (k i : Nat) (stmts : List String)
    (env : Nat → StmtEnv) :
    (runStatementsFrom k stmts env)[i]? =
      (stmts[i]?).map (fun sql => execSetupStmt sql (env (k + i))) := by
  induction stmts generalizing k i with
  | nil => simp [runStatementsFrom]
  | cons a l ih =>
      cases i with
      | zero => simp [runStatementsFrom]
      | succ j =>
          have h : k + (j + 1) = k + 1 + j := by omega
          simp [runStatementsFrom, ih (k + 1) j, h]

end NextTemplate

namespace NextTemplate

/-- C1: for every newly inserted Identity record, the sync trigger inserts
exactly one Profile row with id equal to the identity's id and email equal
to the identity's email, every other nullable field null, in the same
transaction as the Identity insert. -/
theorem trigger_syncs_profile (now : Nat) (new : Identity) (db db' : AuthDB)
    (h : insertAuthUser now new db = .ok db') :
    db'.profiles =
      { id := new.id, email := new.email, username := none, fullName := none,
        avatarUrl := none, bio := none, createdAt := now, updatedAt := now
        : Profile } :: db.profiles ∧
    db'.users = new :: db.users := by
  unfold insertAuthUser handle_new_user insertProfileRow at h
  by_cases h1 : (db.users.any fun u => u.id == new.id) = true
  · simp [h1] at h
  · by_cases h2 : (db.profiles.any fun p => p.id == new.id) = true
    · simp [h1, h2] at h
    · by_cases h3 : (db.profiles.any fun p => p.email == new.email) = true
      · simp [h1, h2, h3] at h
      · simp [h1, h2, h3] at h
        subst h
        exact ⟨rfl, rfl⟩

/-- Witness for C1: inserting the identity `u1` into an empty database
yields exactly the synced profile row. -/
theorem trigger_syncs_profile_witness :
    insertAuthUser 5 ⟨"u1", "u1@x.com"⟩ ⟨[], []⟩ =
      .ok ⟨[⟨"u1", "u1@x.com"⟩],
           [{ id := "u1", email := "u1@x.com", createdAt := 5, updatedAt := 5 }]⟩ ∧
    ([{ id := "u1", email := "u1@x.com", createdAt := 5, updatedAt := 5 }]
      : List Profile) =
      [{ id := "u1", email := "u1@x.com", username := none, fullName := none,
         avatarUrl := none, bio := none, createdAt := 5, updatedAt := 5 }] := by
  refine ⟨rfl, ?_⟩
  have h := trigger_syncs_profile 5 ⟨"u1", "u1@x.com"⟩ ⟨[], []⟩
    ⟨[⟨"u1", "u1@x.com"⟩],
     [{ id := "u1", email := "u1@x.com", createdAt := 5, updatedAt := 5 }]⟩
    rfl
  exact h.1

/-- C2: the RLS policies permit select and update exactly when the caller's
identity equals the row's id, and permit no insert or delete for ordinary
callers; no insert or delete policy exists. -/
theorem rls_owner_only (uid : Option String) (row : Profile) :
    (rlsAllows uid .select row = true ↔ uid = some row.id) ∧
    (rlsAllows uid .update row = true ↔ uid = some row.id) ∧
    rlsAllows uid .insert row = false ∧
    rlsAllows uid .delete row = false ∧
    profilesPolicies.all
      (fun p => !(p.cmd == PolicyCmd.insert) && !(p.cmd == PolicyCmd.delete))
      = true := by
  refine ⟨?_, ?_, ?_, ?_, ?_⟩
  · simp [rlsAllows, profilesPolicies, usersCanViewOwnProfile,
      usersCanUpdateOwnProfile]
  · simp [rlsAllows, profilesPolicies, usersCanViewOwnProfile,
      usersCanUpdateOwnProfile]
  · simp [rlsAllows, profilesPolicies, usersCanViewOwnProfile,
      usersCanUpdateOwnProfile]
  · simp [rlsAllows, profilesPolicies, usersCanViewOwnProfile,
      usersCanUpdateOwnProfile]
  · decide

/-- C3: running the setup statement sequence any number of times (at least
once) leaves the schema, trigger, and policy state identical to running it
once, and no run ever fails with an "already exists" error, because every
`CREATE TRIGGER` / `CREATE POLICY` is preceded by an unconditional
`DROP ... IF EXISTS` (triggers and policies are keyed by name in the
catalog, so a successful run also never duplicates one). -/
theorem setup_idempotent (s : SchemaState) :
    runSetup s = .ok (applySetup s) ∧
    ∀ n, 1 ≤ n → runSetupN n s = runSetup s := by
  refine ⟨runSetup_eq s, ?_⟩
  intro n hn
  obtain ⟨m, rfl⟩ := Nat.exists_eq_add_of_le hn
  have h : runSetupN (1 + m) s = runSetupN m (applySetup s) := by
    have : 1 + m = m + 1 := Nat.add_comm 1 m
    rw [this]
    simp [runSetupN, runSetup_eq]
  rw [h, runSetupN_applySetup, runSetup_eq]

/-- Witness for C3: three runs from the empty catalog equal one run. -/
theorem setup_idempotent_witness :
    runSetup ⟨false, ∅, ∅, ∅, false⟩ = .ok (applySetup ⟨false, ∅, ∅, ∅, false⟩) ∧
    runSetupN 3 ⟨false, ∅, ∅, ∅, false⟩ = runSetup ⟨false, ∅, ∅, ∅, false⟩ :=
  ⟨(setup_idempotent ⟨false, ∅, ∅, ∅, false⟩).1,
   (setup_idempotent ⟨false, ∅, ∅, ∅, false⟩).2 3 (by decide)⟩

/-- C4: when the payload's username is already held by a different
identity, the handler answers 400 "Username already taken", leaves the
table unchanged, and its trace holds only the conflict lookup — no write
was attempted. -/
theorem username_conflict_rejected (now : Nat) (user : Identity)
    (payload : ProfilePayload) (db : List Profile) (uname : String)
    (p : Profile)
    (hu : payload.username = some uname) (hne : uname ≠ "")
    (hp : p ∈ db) (hpu : p.username = some uname) (hpid : p.id ≠ user.id) :
    postProfile now (some user) payload db =
      (.err 400 "Username already taken", db,
        [.findFirstUsernameNotId uname user.id]) := by
  have ht : jsTruthy (some uname) = true := by simp [jsTruthy, hne]
  have hfind : (findFirstUsernameNot uname user.id db).isSome = true := by
    rw [findFirstUsernameNot]
    exact List.find?_isSome.mpr ⟨p, hp, by simp [hpu, hpid]⟩
  unfold postProfile
  rw [hu]
  simp [ht, hfind]

/-- Witness for C4: identity `b` requesting username `"x"` held by `a`. -/
theorem username_conflict_rejected_witness :
    postProfile 9 (some ⟨"b", "b@x.com"⟩) { username := some "x" }
      [{ id := "a", email := "a@x.com", username := some "x" }] =
      (.err 400 "Username already taken",
        [{ id := "a", email := "a@x.com", username := some "x" }],
        [.findFirstUsernameNotId "x" "b"]) :=
  username_conflict_rejected 9 ⟨"b", "b@x.com"⟩ { username := some "x" }
    [{ id := "a", email := "a@x.com", username := some "x" }] "x"
    { id := "a", email := "a@x.com", username := some "x" }
    rfl (by decide) (by simp) rfl (by decide)

/-- C6: with no valid caller session the handler answers 401 and the
trace is empty: no row is read for the conflict check, written, or
created, and the table is unchanged. -/
theorem unauthorized_no_side_effect (now : Nat) (payload : ProfilePayload)
    (db : List Profile) :
    postProfile now none payload db = (.err 401 "Unauthorized", db, []) := rfl

/-- C7: when the payload's username is truthy but held by no identity
other than the caller, the conflict check runs, passes, and the upsert
proceeds (the trace is exactly the lookup followed by the upsert). -/
theorem username_available_passes (now : Nat) (user : Identity)
    (payload : ProfilePayload) (db : List Profile) (uname : String)
    (hu : payload.username = some uname) (hne : uname ≠ "")
    (honly : ∀ p ∈ db, p.username = some uname → p.id = user.id) :
    ∃ q db', postProfile now (some user) payload db =
      (.ok q, db', [.findFirstUsernameNotId uname user.id, .upsert user.id]) := by
  have ht : jsTruthy payload.username = true := by rw [hu]; simp [jsTruthy, hne]
  have hpass : jsTruthy payload.username = false ∨
      ∀ p ∈ db, ¬(p.username = payload.username ∧ p.id ≠ user.id) := by
    refine Or.inr fun p hp hand => ?_
    rw [hu] at hand
    exact hand.2 (honly p hp hand.1)
  rw [postProfile_reaches_upsert now user payload db hpass]
  rw [profileUpsertStep]
  refine ⟨(upsertProfile now user payload db).1,
          (upsertProfile now user payload db).2, ?_⟩
  rw [hu] at ht ⊢
  simp [ht]

/-- Witness for C7: the caller already holds `"x"` and keeps it. -/
theorem username_available_passes_witness :
    ∃ q db', postProfile 4 (some ⟨"a", "a@x.com"⟩) { username := some "x" }
      [{ id := "a", email := "a@x.com", username := some "x" }] =
      (.ok q, db', [.findFirstUsernameNotId "x" "a", .upsert "a"]) :=
  username_available_passes 4 ⟨"a", "a@x.com"⟩ { username := some "x" }
    [{ id := "a", email := "a@x.com", username := some "x" }] "x"
    rfl (by decide) (by decide)

/-- C5: past the conflict check the handler upserts keyed by the caller's
id — updating `username`, `fullName`, `bio` in place when the caller's row
exists, otherwise creating a row with the caller's id and email — and
responds with the resulting profile. -/
theorem profile_upsert_behavior (now : Nat) (user : Identity)
    (payload : ProfilePayload) (db : List Profile)
    (hpass : jsTruthy payload.username = false ∨
      ∀ p ∈ db, ¬(p.username = payload.username ∧ p.id ≠ user.id)) :
    ∃ q db' ops, postProfile now (some user) payload db = (.ok q, db', ops) ∧
      (∀ p, findProfile user.id db = some p →
        q = { p with username := orNull payload.username,
                     fullName := orNull payload.fullName,
                     bio := orNull payload.bio, updatedAt := now } ∧
        db' = db.map (fun r => if r.id == user.id then q else r)) ∧
      (findProfile user.id db = none →
        q = { id := user.id, email := user.email,
              username := orNull payload.username,
              fullName := orNull payload.fullName,
              bio := orNull payload.bio,
              createdAt := now, updatedAt := now } ∧
        db' = db ++ [q]) := by
  rw [postProfile_reaches_upsert now user payload db hpass]
  rw [profileUpsertStep]
  cases hfp : findProfile user.id db with
  | some p =>
      refine ⟨_, _, _, rfl, fun p' hp' => ?_, fun hn => ?_⟩
      · injection hp' with hp'
        subst hp'
        constructor
        · show (upsertProfile now user payload db).1 = _
          rw [upsertProfile, hfp]
        · show (upsertProfile now user payload db).2 = _
          rw [upsertProfile, hfp]
      · exact Option.noConfusion hn
  | none =>
      refine ⟨_, _, _, rfl, fun p' hp' => ?_, fun _ => ?_⟩
      · exact Option.noConfusion hp'
      · constructor
        · show (upsertProfile now user payload db).1 = _
          rw [upsertProfile, hfp]
        · show (upsertProfile now user payload db).2 = _
          rw [upsertProfile, hfp]

/-- Witness for C5: a caller with no row yet gets one created with their
email. -/
theorem profile_upsert_behavior_witness :
    ∃ q db' ops, postProfile 2 (some ⟨"u", "u@x.com"⟩)
        { fullName := some "U" } [] = (.ok q, db', ops) ∧
      (∀ p, findProfile "u" [] = some p →
        q = { p with username := orNull none,
                     fullName := orNull (some "U"),
                     bio := orNull none, updatedAt := 2 } ∧
        db' = List.map (fun r => if r.id == "u" then q else r) []) ∧
      (findProfile "u" [] = none →
        q = { id := "u", email := "u@x.com",
              username := orNull none,
              fullName := orNull (some "U"),
              bio := orNull none,
              createdAt := 2, updatedAt := 2 } ∧
        db' = [] ++ [q]) :=
  profile_upsert_behavior 2 ⟨"u", "u@x.com"⟩ { fullName := some "U" } []
    (Or.inl rfl)

/-- C10: in the update branch `username`, `fullName` and `bio` are written
solely from the payload through `value || null` — an absent, null, or
empty-string value becomes `NULL`, so omitting a field erases it — and an
empty-string username is not conflict-checked (the trace holds no lookup)
and is stored as `NULL`. -/
theorem update_branch_from_payload_only (now : Nat) (user : Identity)
    (payload : ProfilePayload) (db : List Profile) (p : Profile)
    (hex : findProfile user.id db = some p)
    (hpass : jsTruthy payload.username = false ∨
      ∀ r ∈ db, ¬(r.username = payload.username ∧ r.id ≠ user.id)) :
    ∃ q db' ops, postProfile now (some user) payload db = (.ok q, db', ops) ∧
      q = { p with username := orNull payload.username,
                   fullName := orNull payload.fullName,
                   bio := orNull payload.bio, updatedAt := now } ∧
      (payload.username = none → q.username = none) ∧
      (payload.username = some "" →
        q.username = none ∧ ops = [StoreOp.upsert user.id]) ∧
      (jsTruthy payload.username = false → ops = [StoreOp.upsert user.id]) := by
  rw [postProfile_reaches_upsert now user payload db hpass]
  rw [profileUpsertStep]
  have hq : (upsertProfile now user payload db).1 =
      { p with username := orNull payload.username,
               fullName := orNull payload.fullName,
               bio := orNull payload.bio, updatedAt := now } := by
    rw [upsertProfile, hex]
  refine ⟨_, _, _, rfl, hq, ?_, ?_, ?_⟩
  · intro h
    rw [hq]
    simp [orNull, h, jsTruthy]
  · intro h
    constructor
    · rw [hq]
      simp [orNull, h, jsTruthy]
    · rw [h]
      simp [jsTruthy]
  · intro h
    simp [h]

/-- Witness for C10: an existing row updated with
`{username: "", bio: null}` — the username is stored null without a
conflict lookup, and the omitted fields are erased. -/
theorem update_branch_from_payload_only_witness :
    ∃ q db' ops, postProfile 6 (some ⟨"a", "a@x.com"⟩) { username := some "" }
        [{ id := "a", email := "a@x.com", username := some "old",
           fullName := some "Al", bio := some "hi" }] = (.ok q, db', ops) ∧
      q = { id := "a", email := "a@x.com", username := orNull (some ""),
            fullName := orNull none, bio := orNull none,
            avatarUrl := none, createdAt := 0, updatedAt := 6 } ∧
      (q.username = none ∧ ops = [StoreOp.upsert "a"]) := by
  obtain ⟨q, db', ops, h1, h2, _, h4, _⟩ :=
    update_branch_from_payload_only 6 ⟨"a", "a@x.com"⟩ { username := some "" }
      [{ id := "a", email := "a@x.com", username := some "old",
         fullName := some "Al", bio := some "hi" }]
      { id := "a", email := "a@x.com", username := some "old",
        fullName := some "Al", bio := some "hi" }
      rfl (Or.inl rfl)
  exact ⟨q, db', ops, h1, h2, h4 rfl⟩

/-- C8 counterexample: a statement whose RPC call throws — a statement
failure that is not an "already exists" error — is reported as a success
whenever the fallback readability probe finds the profiles table
readable, so not every non-"already exists" failure is surfaced. -/
theorem setup_errors_surfaced_false : ¬ setupErrorsSurfaced := by
  intro h
  obtain ⟨e, he⟩ :=
    h "ALTER TABLE profiles ENABLE ROW LEVEL SECURITY"
      ⟨RpcResult.threw, ReadCheck.okData⟩
      (by intro hc; exact RpcResult.noConfusion hc)
      (fun msg hm => RpcResult.noConfusion hm)
  rw [show execSetupStmt "ALTER TABLE profiles ENABLE ROW LEVEL SECURITY"
      ⟨RpcResult.threw, ReadCheck.okData⟩ =
      .success (stmtFrag "ALTER TABLE profiles ENABLE ROW LEVEL SECURITY")
    from rfl] at he
  exact StmtReport.noConfusion he

/-- C8 as amended: when the RPC resolves with an error object, only an
"already exists" message is recovered and every other message is recorded
as a failure with the message and statement fragment; but when the RPC
call throws, the statement is reported a success whenever the fallback
readability probe succeeds or yields code PGRST116 — masking the failure —
and otherwise recorded with a generic message, not the original error. -/
theorem setup_error_recovery (sql msg : String) (rc : ReadCheck) :
    (includesStr msg "already exists" = false →
      execSetupStmt sql ⟨.errored msg, rc⟩ = .failure (stmtFrag sql) msg) ∧
    (includesStr msg "already exists" = true →
      execSetupStmt sql ⟨.errored msg, rc⟩ = .success (stmtFrag sql)) ∧
    execSetupStmt sql ⟨.threw, .okData⟩ = .success (stmtFrag sql) ∧
    execSetupStmt sql ⟨.threw, .errCode "PGRST116"⟩ = .success (stmtFrag sql) ∧
    (∀ c, c ≠ "PGRST116" → execSetupStmt sql ⟨.threw, .errCode c⟩ =
      .failure (stmtFrag sql) "Direct execution failed") ∧
    execSetupStmt sql ⟨.threw, .threw⟩ = .failure (stmtFrag sql) "Execution failed" := by
  refine ⟨fun h => ?_, fun h => ?_, rfl, rfl, fun c hc => ?_, rfl⟩
  · simp [execSetupStmt, h]
  · simp [execSetupStmt, h]
  · simp [execSetupStmt, hc]

/-- Witness for C8 (amended): a returned "permission denied" error is
recorded, a returned "already exists" error is recovered, and an
unrecognized probe code after a throw yields the generic failure. -/
theorem setup_error_recovery_witness :
    includesStr "permission denied for schema public" "already exists" = false ∧
    execSetupStmt "CREATE TRIGGER on_auth_user_created"
        ⟨.errored "permission denied for schema public", .okData⟩ =
      .failure (stmtFrag "CREATE TRIGGER on_auth_user_created")
        "permission denied for schema public" ∧
    includesStr "trigger already exists" "already exists" = true ∧
    execSetupStmt "CREATE TRIGGER on_auth_user_created"
        ⟨.errored "trigger already exists", .okData⟩ =
      .success (stmtFrag "CREATE TRIGGER on_auth_user_created") ∧
    execSetupStmt "CREATE TRIGGER on_auth_user_created"
        ⟨.threw, .errCode "42501"⟩ =
      .failure (stmtFrag "CREATE TRIGGER on_auth_user_created")
        "Direct execution failed" :=
  ⟨by decide,
   (setup_error_recovery "CREATE TRIGGER on_auth_user_created"
     "permission denied for schema public" .okData).1 (by decide),
   by decide,
   (setup_error_recovery "CREATE TRIGGER on_auth_user_created"
     "trigger already exists" .okData).2.1 (by decide),
   (setup_error_recovery "CREATE TRIGGER on_auth_user_created"
     "" .okData).2.2.2.2.1 "42501" (by decide)⟩

/-- C9: the loop attempts every statement and emits exactly one report
per statement — a non-"already exists" error on one statement is recorded
at that statement's position and does not abort the rest, so the caller
receives a full per-statement report. -/
theorem setup_no_abort (stmts : List String) (env : Nat → StmtEnv) :
    (runSetupStatements stmts env).length = stmts.length ∧
    (∀ i, (runSetupStatements stmts env)[i]? =
      (stmts[i]?).map (fun sql => execSetupStmt sql (env i))) ∧
    (∀ i sql msg rc, stmts[i]? = some sql →
      env i = ⟨RpcResult.errored msg, rc⟩ →
      includesStr msg "already exists" = false →
      (runSetupStatements stmts env)[i]? =
        some (.failure (stmtFrag sql) msg)) := by
  refine ⟨runStatementsFrom_length 0 stmts env, fun i => ?_, ?_⟩
  · have h := runStatementsFrom_getElem? 0 i stmts env
    simpa using h
  · intro i sql msg rc hs he hmsg
    have h := runStatementsFrom_getElem? 0 i stmts env
    rw [runSetupStatements, h, hs]
    simp [he, execSetupStmt, hmsg]

/-- Witness for C9: three statements, the second failing with a
non-"already exists" error — all three are reported and the failure sits
at position 1. -/
theorem setup_no_abort_witness :
    (runSetupStatements ["CREATE TABLE a", "CREATE TRIGGER t", "CREATE POLICY p"]
      (fun i => if i == 1 then ⟨.errored "permission denied", .okData⟩
                else ⟨.ok, .okData⟩)).length = 3 ∧
    (runSetupStatements ["CREATE TABLE a", "CREATE TRIGGER t", "CREATE POLICY p"]
      (fun i => if i == 1 then ⟨.errored "permission denied", .okData⟩
                else ⟨.ok, .okData⟩))[1]? =
      some (.failure (stmtFrag "CREATE TRIGGER t") "permission denied") :=
  ⟨(setup_no_abort ["CREATE TABLE a", "CREATE TRIGGER t", "CREATE POLICY p"]
      (fun i => if i == 1 then ⟨.errored "permission denied", .okData⟩
                else ⟨.ok, .okData⟩)).1,
   (setup_no_abort ["CREATE TABLE a", "CREATE TRIGGER t", "CREATE POLICY p"]
      (fun i => if i == 1 then ⟨.errored "permission denied", .okData⟩
                else ⟨.ok, .okData⟩)).2.2 1 "CREATE TRIGGER t"
      "permission denied" .okData rfl rfl (by decide)⟩

end NextTemplate
